import Mathlib

set_option autoImplicit false

/-!
Verification of the junos_exporter command/parse/map pipeline
(`src/interfaces/interface_collector.go`).

The Go code is shallowly embedded as follows:
* XML envelope structs (`InterfaceRpc`, `AlarmRpc`, …) are Lean structures
  holding exactly the fields the source reads; fields the source leaves unset
  keep Go's zero values, written here as structure defaults.
* The SSH command channel (`connector.SshConnection.RunCommand`) and the XML
  decoder (`encoding/xml.Unmarshal`) are external collaborators; they are
  passed in as function parameters returning `Except Err`.  A Go
  `(value, error)` return is `Except Err value`: the error case carries no
  records, exactly as the source returns `nil, err`.
* `regexp.MustCompile(...).MatchString` is external; a compiled pattern is
  modelled as a `String → Bool` predicate, and `RpcClient.alarmFilter` as
  `Option (String → Bool)` (Go's possibly-nil `*regexp.Regexp`).
* `strconv.ParseFloat` is external; it is a parameter of type
  `String → Option ℚ` (`none` models a parse error).
* Go `float64` values that are casts of integer counters are kept as `Int`;
  natively fractional optics readings are `ℚ`.
* Go's `map[string]float64` is an association list with replace-on-update;
  Go leaves map iteration order unspecified, determinized here as
  first-insertion order (no claim depends on that order).
-/

namespace JunosExporter

/-- Error values (Go's `error` interface); the payload is irrelevant here. -/
abbrev Err := String

/-! ## Envelope types (fields as read by the source) -/

/-- Traffic statistics block of an interface envelope entry. -/
structure TrafficStat where
  InputBytes : Int := 0
  OutputBytes : Int := 0
deriving DecidableEq, Repr

/-- Error statistics block (input-errors / output-errors). -/
structure ErrorsStat where
  Drops : Int := 0
  Errors : Int := 0
deriving DecidableEq, Repr

/-- A logical (sub-)interface entry nested under a physical entry. -/
structure LogicalInterface where
  Name : String := ""
  Description : String := ""
  Stats : TrafficStat := {}
deriving DecidableEq, Repr

/-- A physical interface entry of the `show interfaces statistics detail` reply. -/
structure PhyInterface where
  Name : String := ""
  AdminStatus : String := ""
  OperStatus : String := ""
  Description : String := ""
  MacAddress : String := ""
  Stats : TrafficStat := {}
  InputErrors : ErrorsStat := {}
  OutputErrors : ErrorsStat := {}
  LogicalInterfaces : List LogicalInterface := []
deriving DecidableEq, Repr

/-- `interface-information` element. -/
structure InterfaceInformation where
  Interfaces : List PhyInterface := []
deriving DecidableEq, Repr

/-- Envelope of `show interfaces statistics detail`. -/
structure InterfaceRpc where
  Information : InterfaceInformation := {}
deriving DecidableEq, Repr

/-- One alarm detail of an alarm reply (Go field `Type` is `Typ` here, `Type`
being reserved in Lean). -/
structure AlarmDetails where
  Class : String := ""
  Description : String := ""
  Typ : String := ""
deriving DecidableEq, Repr

/-- `alarm-information` element. -/
structure AlarmInformation where
  Details : List AlarmDetails := []
deriving DecidableEq, Repr

/-- Envelope of `show system alarms` / `show chassis alarms`. -/
structure AlarmRpc where
  Information : AlarmInformation := {}
deriving DecidableEq, Repr

/-- One ISIS adjacency entry. -/
structure IsisAdjacencyEntry where
  AdjacencyState : String := ""
deriving DecidableEq, Repr

/-- `isis-adjacency-information` element. -/
structure IsisInformation where
  Adjacencies : List IsisAdjacencyEntry := []
deriving DecidableEq, Repr

/-- Envelope of `show isis adjacency`. -/
structure IsisRpc where
  Information : IsisInformation := {}
deriving DecidableEq, Repr

/-- Per-protocol route counts of a routing-table envelope entry. -/
structure ProtocolRpcEntry where
  Name : String := ""
  Routes : Int := 0
  ActiveRoutes : Int := 0
deriving DecidableEq, Repr

/-- One routing-table entry of the `show route summary` reply. -/
structure RouteTableRpcEntry where
  Name : String := ""
  MaxRoutes : Int := 0
  ActiveRoutes : Int := 0
  TotalRoutes : Int := 0
  Protocols : List ProtocolRpcEntry := []
deriving DecidableEq, Repr

/-- `route-summary-information` element. -/
structure RouteInformation where
  Tables : List RouteTableRpcEntry := []
deriving DecidableEq, Repr

/-- Envelope of `show route summary`. -/
structure RouteRpc where
  Information : RouteInformation := {}
deriving DecidableEq, Repr

/-- A temperature reading (`<temperature>` element with a numeric value). -/
structure TemperatureStat where
  Value : Int := 0
deriving DecidableEq, Repr

/-- One environment item; `Temperature` is a possibly-nil pointer in Go. -/
structure EnvironmentItemRpcEntry where
  Name : String := ""
  Temperature : Option TemperatureStat := none
deriving DecidableEq, Repr

/-- `environment-information` element. -/
structure EnvironmentInformation where
  Items : List EnvironmentItemRpcEntry := []
deriving DecidableEq, Repr

/-- Envelope of `show chassis environment`. -/
structure EnvironmentRpc where
  Information : EnvironmentInformation := {}
deriving DecidableEq, Repr

/-- Module temperature element of an optics diagnostics block. -/
structure ModuleTemperatureStat where
  Value : ℚ := 0
deriving DecidableEq, Repr

/-- The optics diagnostics block of one entry; the dBm fields are textual in
the envelope and parsed with `strconv.ParseFloat` by the mapper. -/
structure OpticsDiagBlock where
  NA : String := ""
  LaserBiasCurrent : ℚ := 0
  LaserOutputPower : ℚ := 0
  LaserOutputPowerDbm : String := ""
  ModuleTemperature : ModuleTemperatureStat := {}
  ModuleVoltage : ℚ := 0
  RxSignalAvgOpticalPower : ℚ := 0
  RxSignalAvgOpticalPowerDbm : String := ""
  LaserRxOpticalPower : ℚ := 0
  LaserRxOpticalPowerDbm : String := ""
deriving DecidableEq, Repr

/-- One entry of the `show interfaces diagnostics optics` reply. -/
structure OpticsDiagEntry where
  Name : String := ""
  Diagnostics : OpticsDiagBlock := {}
deriving DecidableEq, Repr

/-- `interface-diagnostics-information` element. -/
structure InterfaceDiagnosticsInformation where
  Diagnostics : List OpticsDiagEntry := []
deriving DecidableEq, Repr

/-- Envelope of `show interfaces diagnostics optics`. -/
structure InterfaceDiagnosticsRpc where
  Information : InterfaceDiagnosticsInformation := {}
deriving DecidableEq, Repr

/-! ## Domain record types (packages `interfaces`, `alarm`, `isis`, `route`,
`environment`, `interface_diagnostics`) -/

/-- Normalized interface record (`interfaces.InterfaceStats`); unset fields
take Go zero values. -/
structure Interfaces.InterfaceStats where
  IsPhysical : Bool := false
  Name : String := ""
  AdminStatus : Bool := false
  OperStatus : Bool := false
  ErrorStatus : Bool := false
  Description : String := ""
  Mac : String := ""
  ReceiveDrops : Int := 0
  ReceiveErrors : Int := 0
  ReceiveBytes : Int := 0
  TransmitDrops : Int := 0
  TransmitErrors : Int := 0
  TransmitBytes : Int := 0
deriving DecidableEq, Repr

/-- Aggregate alarm tallies (`alarm.AlarmCounter`); the Go struct stores the
tallies as `float64` casts of the integer loop counters, kept as `Nat` here. -/
structure Alarm.AlarmCounter where
  RedCount : Nat := 0
  YellowCount : Nat := 0
deriving DecidableEq, Repr

/-- Aggregate ISIS adjacency health (`isis.IsisAdjacencies`). -/
structure Isis.IsisAdjacencies where
  Up : Nat := 0
  Total : Nat := 0
deriving DecidableEq, Repr

/-- Per-protocol route counts record (`route.ProtocolRouteCount`). -/
structure Route.ProtocolRouteCount where
  Name : String := ""
  Routes : Int := 0
  ActiveRoutes : Int := 0
deriving DecidableEq, Repr

/-- Routing-table record (`route.RoutingTable`) with its ordered protocol list. -/
structure Route.RoutingTable where
  Name : String := ""
  MaxRoutes : Int := 0
  ActiveRoutes : Int := 0
  TotalRoutes : Int := 0
  Protocols : List Route.ProtocolRouteCount := []
deriving DecidableEq, Repr

/-- Environment item record (`environment.EnvironmentItem`). -/
structure Environment.EnvironmentItem where
  Name : String := ""
  Temperature : Int := 0
deriving DecidableEq, Repr

/-- Optics diagnostics record (`interface_diagnostics.InterfaceDiagnostics`);
unset fields take Go zero values. -/
structure Diag.InterfaceDiagnostics where
  Name : String := ""
  LaserBiasCurrent : ℚ := 0
  LaserOutputPower : ℚ := 0
  LaserOutputPowerDbm : ℚ := 0
  ModuleTemperature : ℚ := 0
  ModuleVoltage : ℚ := 0
  RxSignalAvgOpticalPower : ℚ := 0
  RxSignalAvgOpticalPowerDbm : ℚ := 0
  LaserRxOpticalPower : ℚ := 0
  LaserRxOpticalPowerDbm : ℚ := 0
deriving DecidableEq, Repr

/-! ## RpcClient -/

/-- The RPC client: the bound command channel (`conn.RunCommand` scoped to the
target), the debug flag, and the optional compiled alarm filter. -/
structure RpcClient where
  run : String → Except Err String
  debug : Bool
  alarmFilter : Option (String → Bool)

/-- `NewClient`: the filter is compiled only when the pattern is non-empty,
otherwise it stays nil.  `compile` stands for `regexp.MustCompile ∘ MatchString`. -/
def NewClient (run : String → Except Err String) (debug : Bool)
    (alarmFilter : String) (compile : String → (String → Bool)) : RpcClient :=
  if alarmFilter.length > 0 then
    { run := run, debug := debug, alarmFilter := some (compile alarmFilter) }
  else
    { run := run, debug := debug, alarmFilter := none }

/-- `runCommandAndParse`: append the XML directive, run the command on the
channel, and on success decode the reply bytes with `unmarshal`. -/
def RpcClient.runCommandAndParse {α : Type} (c : RpcClient)
    (unmarshal : String → Except Err α) (cmd : String) : Except Err α :=
  match c.run (cmd ++ " | display xml") with
  | .error e => .error e
  | .ok b => unmarshal b

/-! ### Interfaces -/

/-- The record built for one physical envelope entry (the `s := &InterfaceStats{…}`
literal of the source). -/
def physRecordOf (phy : PhyInterface) : Interfaces.InterfaceStats :=
  { IsPhysical := true
    Name := phy.Name
    AdminStatus := phy.AdminStatus == "up"
    OperStatus := phy.OperStatus == "up"
    ErrorStatus := !(phy.AdminStatus == phy.OperStatus)
    Description := phy.Description
    Mac := phy.MacAddress
    ReceiveDrops := phy.InputErrors.Drops
    ReceiveErrors := phy.InputErrors.Errors
    ReceiveBytes := phy.Stats.InputBytes
    TransmitDrops := phy.OutputErrors.Drops
    TransmitErrors := phy.OutputErrors.Errors
    TransmitBytes := phy.Stats.OutputBytes }

/-- The record built for one logical entry (the `sl := &InterfaceStats{…}`
literal of the source); all other fields keep Go zero values. -/
def logRecordOf (phy : PhyInterface) (lg : LogicalInterface) : Interfaces.InterfaceStats :=
  { IsPhysical := false
    Name := lg.Name
    Description := lg.Description
    Mac := phy.MacAddress
    ReceiveBytes := lg.Stats.InputBytes
    TransmitBytes := lg.Stats.OutputBytes }

/-- `RpcClient.InterfaceStats`: run the interfaces command and map each physical
entry, then each of its logical entries, appending in source order. -/
def RpcClient.InterfaceStats (c : RpcClient)
    (unmarshal : String → Except Err InterfaceRpc) :
    Except Err (List Interfaces.InterfaceStats) :=
  match c.runCommandAndParse unmarshal "show interfaces statistics detail" with
  | .error e => .error e
  | .ok x =>
    .ok (x.Information.Interfaces.foldl (fun stats phy =>
      (phy.LogicalInterfaces.foldl (fun stats lg => stats ++ [logRecordOf phy lg])
        (stats ++ [physRecordOf phy]))) [])

/-! ### Alarms -/

/-- `shouldFilterAlarm`: no filter means nothing is filtered; otherwise the
pattern is tried on the description and on the type field. -/
def RpcClient.shouldFilterAlarm (c : RpcClient) (alarm : AlarmDetails) : Bool :=
  match c.alarmFilter with
  | none => false
  | some m => m alarm.Description || m alarm.Typ

/-- The inner tally loop of `AlarmCounter` over one reply's details, threading
the `red`/`yellow` counters. -/
def countAlarms (c : RpcClient) : List AlarmDetails → Nat → Nat → Nat × Nat
  | [], red, yellow => (red, yellow)
  | d :: rest, red, yellow =>
    if c.shouldFilterAlarm d then countAlarms c rest red yellow
    else if d.Class == "Major" then countAlarms c rest (red + 1) yellow
    else if d.Class == "Minor" then countAlarms c rest red (yellow + 1)
    else countAlarms c rest red yellow

/-- The outer loop of `AlarmCounter` over the two commands; an error aborts
with no counter value. -/
def RpcClient.alarmLoop (c : RpcClient) (unmarshal : String → Except Err AlarmRpc) :
    List String → Nat → Nat → Except Err Alarm.AlarmCounter
  | [], red, yellow => .ok { RedCount := red, YellowCount := yellow }
  | cmd :: rest, red, yellow =>
    match c.runCommandAndParse unmarshal cmd with
    | .error e => .error e
    | .ok a =>
      let p := countAlarms c a.Information.Details red yellow
      c.alarmLoop unmarshal rest p.1 p.2

/-- `RpcClient.AlarmCounter`: tally `show system alarms` then
`show chassis alarms` into one red/yellow counter pair. -/
def RpcClient.AlarmCounter (c : RpcClient)
    (unmarshal : String → Except Err AlarmRpc) : Except Err Alarm.AlarmCounter :=
  c.alarmLoop unmarshal ["show system alarms", "show chassis alarms"] 0 0

/-! ### ISIS -/

/-- The adjacency loop of `IsisAdjancies`, threading the `up`/`total` counters. -/
def isisLoop : List IsisAdjacencyEntry → Nat → Nat → Nat × Nat
  | [], up, total => (up, total)
  | a :: rest, up, total =>
    isisLoop rest (if a.AdjacencyState == "Up" then up + 1 else up) (total + 1)

/-- `RpcClient.IsisAdjancies` (name as in the source): aggregate adjacency
counts from `show isis adjacency`. -/
def RpcClient.IsisAdjancies (c : RpcClient)
    (unmarshal : String → Except Err IsisRpc) : Except Err Isis.IsisAdjacencies :=
  match c.runCommandAndParse unmarshal "show isis adjacency" with
  | .error e => .error e
  | .ok x =>
    let p := isisLoop x.Information.Adjacencies 0 0
    .ok { Up := p.1, Total := p.2 }

/-! ### Routing tables -/

/-- The record built for one protocol entry (the `p := &ProtocolRouteCount{…}`
literal of the source). -/
def protoRecordOf (proto : ProtocolRpcEntry) : Route.ProtocolRouteCount :=
  { Name := proto.Name, Routes := proto.Routes, ActiveRoutes := proto.ActiveRoutes }

/-- `RpcClient.RoutingTables`: one record per table, protocols appended in
envelope order. -/
def RpcClient.RoutingTables (c : RpcClient)
    (unmarshal : String → Except Err RouteRpc) : Except Err (List Route.RoutingTable) :=
  match c.runCommandAndParse unmarshal "show route summary" with
  | .error e => .error e
  | .ok x =>
    .ok (x.Information.Tables.foldl (fun tables table =>
      tables ++ [{ Name := table.Name
                   MaxRoutes := table.MaxRoutes
                   ActiveRoutes := table.ActiveRoutes
                   TotalRoutes := table.TotalRoutes
                   Protocols := table.Protocols.foldl
                     (fun protos proto => protos ++ [protoRecordOf proto]) [] }]) [])

/-! ### Environment -/

/-- Assignment `list[k] = v` on Go's `map[string]float64`, modelled on an
association list: replace the first binding of the key when present, append
otherwise.  The fold below only ever builds lists with pairwise-distinct keys,
on which this is exactly Go's map assignment. -/
def mapSet : List (String × Int) → String → Int → List (String × Int)
  | [], k, v => [(k, v)]
  | p :: l, k, v => if p.1 == k then (k, v) :: l else p :: mapSet l k v

/-- Key lookup on the association-list model of the Go map. -/
def alookup (k : String) : List (String × Int) → Option Int
  | [] => none
  | p :: l => if p.1 == k then some p.2 else alookup k l

/-- First-result choice, used to state last-write-wins lookups. -/
def optOr (a b : Option Int) : Option Int :=
  match a with
  | some v => some v
  | none => b

/-- The key list of the association-list model of the Go map. -/
def akeys (l : List (String × Int)) : List String := l.map Prod.fst

/-- The name/temperature pairs the dedup loop actually inserts: items lacking a
temperature reading are skipped, in envelope order. -/
def withTemp (items : List EnvironmentItemRpcEntry) : List (String × Int) :=
  items.filterMap (fun i => i.Temperature.map (fun t => (i.Name, t.Value)))

/-- The dedup loop of `EnvironmentItems`: insert every item that has a
temperature into the map, last write winning. -/
def envFold (items : List EnvironmentItemRpcEntry) (acc : List (String × Int)) :
    List (String × Int) :=
  items.foldl (fun acc item =>
    match item.Temperature with
    | some t => mapSet acc item.Name t.Value
    | none => acc) acc

/-- `RpcClient.EnvironmentItems`: deduplicate by name through the map, then
emit one record per binding. -/
def RpcClient.EnvironmentItems (c : RpcClient)
    (unmarshal : String → Except Err EnvironmentRpc) :
    Except Err (List Environment.EnvironmentItem) :=
  match c.runCommandAndParse unmarshal "show chassis environment" with
  | .error e => .error e
  | .ok x =>
    .ok ((envFold x.Information.Items []).map
      (fun p => { Name := p.1, Temperature := p.2 }))

/-! ### Optical diagnostics -/

/-- The record built for one optics entry that is not skipped: base fields,
then the laser-output dBm parse, then exactly one of the two RX-power branches
chosen on `ModuleVoltage > 0`; every failed parse leaves its field at zero. -/
def diagRecordOf (parseFloat : String → Option ℚ) (diag : OpticsDiagEntry) :
    Diag.InterfaceDiagnostics :=
  let d0 : Diag.InterfaceDiagnostics :=
    { Name := diag.Name
      LaserBiasCurrent := diag.Diagnostics.LaserBiasCurrent
      LaserOutputPower := diag.Diagnostics.LaserOutputPower
      ModuleTemperature := diag.Diagnostics.ModuleTemperature.Value }
  let d1 : Diag.InterfaceDiagnostics :=
    match parseFloat diag.Diagnostics.LaserOutputPowerDbm with
    | some f => { d0 with LaserOutputPowerDbm := f }
    | none => d0
  if 0 < diag.Diagnostics.ModuleVoltage then
    let d2 : Diag.InterfaceDiagnostics :=
      { d1 with ModuleVoltage := diag.Diagnostics.ModuleVoltage
                RxSignalAvgOpticalPower := diag.Diagnostics.RxSignalAvgOpticalPower }
    match parseFloat diag.Diagnostics.RxSignalAvgOpticalPowerDbm with
    | some f => { d2 with RxSignalAvgOpticalPowerDbm := f }
    | none => d2
  else
    let d2 : Diag.InterfaceDiagnostics :=
      { d1 with LaserRxOpticalPower := diag.Diagnostics.LaserRxOpticalPower }
    match parseFloat diag.Diagnostics.LaserRxOpticalPowerDbm with
    | some f => { d2 with LaserRxOpticalPowerDbm := f }
    | none => d2

/-- `RpcClient.InterfaceDiagnostics`: skip `"N/A"` entries, map the rest. -/
def RpcClient.InterfaceDiagnostics (c : RpcClient)
    (unmarshal : String → Except Err InterfaceDiagnosticsRpc)
    (parseFloat : String → Option ℚ) : Except Err (List Diag.InterfaceDiagnostics) :=
  match c.runCommandAndParse unmarshal "show interfaces diagnostics optics" with
  | .error e => .error e
  | .ok x =>
    .ok (x.Information.Diagnostics.foldl (fun acc diag =>
      if diag.Diagnostics.NA == "N/A" then acc
      else acc ++ [diagRecordOf parseFloat diag]) [])

/-! ## Interface collector (package `interfaces`) -/

/-- The nine metric descriptors declared by the interface collector's `init`. -/
inductive MetricDesc where
  | receiveBytes
  | receiveErrors
  | receiveDrops
  | transmitBytes
  | transmitErrors
  | transmitDrops
  | adminUp
  | up
  | errorStatus
deriving DecidableEq, Repr

/-- One emitted sample (`prometheus.MustNewConstMetric`): descriptor, gauge
value, label values. -/
structure Metric where
  desc : MetricDesc
  value : Int
  labelValues : List String
deriving DecidableEq, Repr

/-- `collectForInterface`: byte counters for every record; status, error-status
and error/drop counters only for physical records, in source emission order. -/
def Interfaces.collectForInterface (s : Interfaces.InterfaceStats)
    (labelValues : List String) : List Metric :=
  let l := labelValues ++ [s.Name, s.Description, s.Mac]
  let base : List Metric :=
    [{ desc := .receiveBytes, value := s.ReceiveBytes, labelValues := l },
     { desc := .transmitBytes, value := s.TransmitBytes, labelValues := l }]
  if s.IsPhysical then
    let adminUp : Int := if s.AdminStatus then 1 else 0
    let operUp : Int := if s.OperStatus then 1 else 0
    let errVal : Int := if s.ErrorStatus then 1 else 0
    base ++
      [{ desc := .adminUp, value := adminUp, labelValues := l },
       { desc := .up, value := operUp, labelValues := l },
       { desc := .errorStatus, value := errVal, labelValues := l },
       { desc := .transmitErrors, value := s.TransmitErrors, labelValues := l },
       { desc := .transmitDrops, value := s.TransmitDrops, labelValues := l },
       { desc := .receiveErrors, value := s.ReceiveErrors, labelValues := l },
       { desc := .receiveDrops, value := s.ReceiveDrops, labelValues := l }]
  else base

/-- `InterfaceCollector.Collect`: one datasource call; an error aborts the
whole invocation with zero samples, otherwise every record's samples are
emitted in order. -/
def Interfaces.Collect (datasource : Except Err (List Interfaces.InterfaceStats))
    (labelValues : List String) : Except Err (List Metric) :=
  match datasource with
  | .error e => .error e
  | .ok stats =>
    .ok (stats.foldl (fun ms s => ms ++ Interfaces.collectForInterface s labelValues) [])

/-! ## Concrete inputs used by counterexamples and witnesses -/

/-- Concrete input refuting C1 as stated: admin and oper strings differ while
neither is `"up"`, so both booleans are false (equal) yet error-status is true. -/
def exIfcPhy : PhyInterface :=
  { Name := "xe-0/0/0", AdminStatus := "down", OperStatus := "testing" }

def exIfcRpc : InterfaceRpc := { Information := { Interfaces := [exIfcPhy] } }

def exIfcClient : RpcClient :=
  { run := fun s => .ok s, debug := false, alarmFilter := none }

def exIfcUnmarshal : String → Except Err InterfaceRpc := fun _ => .ok exIfcRpc

/-- Witness interface for C1: admin "up", oper "down". -/
def wIfcPhy : PhyInterface :=
  { Name := "ge-0/0/1", AdminStatus := "up", OperStatus := "down" }

def wIfcRpc : InterfaceRpc := { Information := { Interfaces := [wIfcPhy] } }

def wIfcClient : RpcClient :=
  { run := fun s => .ok s, debug := false, alarmFilter := none }

def wIfcUnmarshal : String → Except Err InterfaceRpc := fun _ => .ok wIfcRpc

/-- Contiguous-substring test on character lists. -/
def subStr (p : List Char) : List Char → Bool
  | [] => p.isEmpty
  | c :: cs => p.isPrefixOf (c :: cs) || subStr p cs

/-- Modelled from the spec: `regexp.MustCompile "fan"` (the scenario's filter
pattern; `regexp` is an external library) matches via `MatchString` exactly the
strings containing "fan" as a contiguous substring, the pattern having no
metacharacters. -/
def fanMatcher (s : String) : Bool := subStr "fan".toList s.toList

def exAlarmSys : AlarmRpc :=
  { Information := { Details :=
      [{ Class := "Major", Description := "fan failure" },
       { Class := "Minor", Description := "psu warn" }] } }

def exAlarmChas : AlarmRpc :=
  { Information := { Details := [{ Class := "Major", Description := "fan failure" }] } }

def exAlarmClient : RpcClient :=
  { run := fun s => .ok s, debug := false, alarmFilter := some fanMatcher }

def exAlarmUnmarshal : String → Except Err AlarmRpc :=
  fun b => if b == "show system alarms | display xml" then .ok exAlarmSys else .ok exAlarmChas

/-- Witness inputs for C10 (client built by `NewClient` with an empty filter). -/
def w10Run : String → Except Err String := fun s => .ok s

def w10Compile : String → (String → Bool) := fun _ _ => true

def w10Sys : AlarmRpc :=
  { Information := { Details := [{ Class := "Major", Description := "temp hot" }] } }

def w10Chas : AlarmRpc :=
  { Information := { Details := [{ Class := "Minor", Description := "psu warn" }] } }

def w10Unmarshal : String → Except Err AlarmRpc :=
  fun b => if b == "show system alarms | display xml" then .ok w10Sys else .ok w10Chas

def w10Det : AlarmDetails := { Class := "Major", Description := "fan failure" }

/-- Witness inputs for C9 (ISIS adjacency aggregate). -/
def wIsisRpc : IsisRpc :=
  { Information := { Adjacencies :=
      [{ AdjacencyState := "Up" }, { AdjacencyState := "Down" },
       { AdjacencyState := "Up" }] } }

def wIsisClient : RpcClient :=
  { run := fun s => .ok s, debug := false, alarmFilter := none }

def wIsisUnmarshal : String → Except Err IsisRpc := fun _ => .ok wIsisRpc

/-- Witness inputs for C8 (routing-table protocol order). -/
def wRouteTable : RouteTableRpcEntry :=
  { Name := "inet.0", MaxRoutes := 0, ActiveRoutes := 155, TotalRoutes := 205,
    Protocols :=
      [{ Name := "direct", Routes := 5, ActiveRoutes := 5 },
       { Name := "bgp", Routes := 200, ActiveRoutes := 150 }] }

def wRouteRpc : RouteRpc := { Information := { Tables := [wRouteTable] } }

def wRouteClient : RpcClient :=
  { run := fun s => .ok s, debug := false, alarmFilter := none }

def wRouteUnmarshal : String → Except Err RouteRpc := fun _ => .ok wRouteRpc

/-- Witness inputs for C3: one populated optics entry (module voltage 3 > 0)
and one "N/A" entry that must be skipped. -/
def wDiagBlockA : OpticsDiagBlock :=
  { NA := "", LaserBiasCurrent := 6, LaserOutputPower := 1,
    LaserOutputPowerDbm := "0", ModuleTemperature := { Value := 40 },
    ModuleVoltage := 3, RxSignalAvgOpticalPower := 2,
    RxSignalAvgOpticalPowerDbm := "-3", LaserRxOpticalPower := 5,
    LaserRxOpticalPowerDbm := "-2" }

def wDiagEntryA : OpticsDiagEntry := { Name := "et-0/0/0", Diagnostics := wDiagBlockA }

def wDiagEntryNA : OpticsDiagEntry :=
  { Name := "ge-0/0/9", Diagnostics := { NA := "N/A" } }

def wDiagRpc : InterfaceDiagnosticsRpc :=
  { Information := { Diagnostics := [wDiagEntryA, wDiagEntryNA] } }

def wDiagClient : RpcClient :=
  { run := fun s => .ok s, debug := false, alarmFilter := none }

def wDiagUnmarshal : String → Except Err InterfaceDiagnosticsRpc := fun _ => .ok wDiagRpc

/-- Modelled from the spec: `strconv.ParseFloat` (external library) on the
witness's textual dBm fields — it parses the two decimal literals and fails on
anything else. -/
def wDiagParse : String → Option ℚ :=
  fun s =>
    if s == "0" then some 0
    else if s == "-3" then some (-3)
    else if s == "-2" then some (-2)
    else none

/-- Witness inputs for C7: an optics entry (module voltage 0, so the laser-RX
branch) whose dBm texts nothing can parse. -/
def wDiag7Entry : OpticsDiagEntry :=
  { Name := "xe-1/0/0", Diagnostics :=
      { NA := "", LaserBiasCurrent := 7, LaserOutputPower := 2,
        LaserOutputPowerDbm := "unparseable", ModuleTemperature := { Value := 33 },
        ModuleVoltage := 0, LaserRxOpticalPower := 4,
        LaserRxOpticalPowerDbm := "also bad" } }

def wDiag7Rpc : InterfaceDiagnosticsRpc :=
  { Information := { Diagnostics := [wDiag7Entry] } }

def wDiag7Client : RpcClient :=
  { run := fun s => .ok s, debug := false, alarmFilter := none }

def wDiag7Unmarshal : String → Except Err InterfaceDiagnosticsRpc := fun _ => .ok wDiag7Rpc

/-- Modelled from the spec: a `strconv.ParseFloat` stand-in that fails on every
input, exercising the silent zero-default path. -/
def wDiag7Parse : String → Option ℚ := fun _ => none

/-- Witness inputs for C4: a duplicate name with different temperatures and an
item lacking a temperature reading. -/
def wEnvItems : List EnvironmentItemRpcEntry :=
  [{ Name := "PSU 0", Temperature := some { Value := 30 } },
   { Name := "Fan Tray", Temperature := none },
   { Name := "PSU 0", Temperature := some { Value := 45 } }]

def wEnvRpc : EnvironmentRpc := { Information := { Items := wEnvItems } }

def wEnvClient : RpcClient :=
  { run := fun s => .ok s, debug := false, alarmFilter := none }

def wEnvUnmarshal : String → Except Err EnvironmentRpc := fun _ => .ok wEnvRpc

/-- Witness inputs for C6: one physical entry owning one logical entry. -/
def wC6Lg : LogicalInterface :=
  { Name := "ge-0/0/1.0", Description := "uplink unit",
    Stats := { InputBytes := 100, OutputBytes := 200 } }

def wC6Phy : PhyInterface :=
  { Name := "ge-0/0/1", AdminStatus := "up", OperStatus := "up",
    Description := "uplink", MacAddress := "aa:bb:cc:dd:ee:ff",
    Stats := { InputBytes := 1000, OutputBytes := 2000 },
    InputErrors := { Drops := 1, Errors := 2 },
    OutputErrors := { Drops := 3, Errors := 4 },
    LogicalInterfaces := [wC6Lg] }

def wC6Rpc : InterfaceRpc := { Information := { Interfaces := [wC6Phy] } }

def wC6Client : RpcClient :=
  { run := fun s => .ok s, debug := false, alarmFilter := none }

def wC6Unmarshal : String → Except Err InterfaceRpc := fun _ => .ok wC6Rpc

/-- Witness inputs for C5: a channel that fails on the chassis-alarms command
only, plus a decoder that always fails. -/
def wErrSys : AlarmRpc :=
  { Information := { Details := [{ Class := "Major", Description := "temp hot" }] } }

def wErrRun : String → Except Err String :=
  fun s => if s == "show chassis alarms | display xml" then .error "boom" else .ok s

def wErrClient : RpcClient :=
  { run := wErrRun, debug := false, alarmFilter := none }

def wErrUnmarshal : String → Except Err AlarmRpc := fun _ => .ok wErrSys

def wErrUnmarshalBad : String → Except Err AlarmRpc := fun _ => .error "bad xml"

def wErrUnmarshalIfc : String → Except Err InterfaceRpc := fun _ => .ok {}

end JunosExporter

namespace JunosExporter

/-! ## Helper lemmas -/

theorem foldl_append_one {α β : Type} (f : α → β) (l : List α) (init : List β) :
    l.foldl (fun acc a => acc ++ [f a]) init = init ++ l.map f := by
  induction l generalizing init with
  | nil => simp
  | cons a t ih => simp [List.foldl_cons, ih]

/-- The stats loop flattens to one physical record followed by its logical records,
per physical entry, in envelope order. -/
theorem interfaceStats_foldl_eq (l : List PhyInterface)
    (init : List Interfaces.InterfaceStats) :
    l.foldl (fun stats phy =>
      (phy.LogicalInterfaces.foldl (fun stats lg => stats ++ [logRecordOf phy lg])
        (stats ++ [physRecordOf phy]))) init
      = init ++ l.flatMap (fun phy =>
          physRecordOf phy :: phy.LogicalInterfaces.map (logRecordOf phy)) := by
  induction l generalizing init with
  | nil => simp
  | cons phy t ih =>
    simp only [List.foldl_cons]
    rw [foldl_append_one, ih, List.flatMap_cons]
    simp [List.append_assoc]

/-- `InterfaceStats` on a decoded envelope, in closed form. -/
theorem interfaceStats_ok (c : RpcClient) (unmarshal : String → Except Err InterfaceRpc)
    (x : InterfaceRpc)
    (h : c.runCommandAndParse unmarshal "show interfaces statistics detail" = .ok x) :
    c.InterfaceStats unmarshal =
      .ok (x.Information.Interfaces.flatMap (fun phy =>
        physRecordOf phy :: phy.LogicalInterfaces.map (logRecordOf phy))) := by
  unfold RpcClient.InterfaceStats
  rw [h]
  refine congrArg Except.ok ?_
  rw [interfaceStats_foldl_eq]
  simp

/-- The inner alarm tally in closed form: the kept details are those the filter
does not match, majors add to red, minors to yellow, others to neither. -/
theorem countAlarms_eq (c : RpcClient) (l : List AlarmDetails) (red yellow : Nat) :
    countAlarms c l red yellow =
      (red + ((l.filter (fun d => !c.shouldFilterAlarm d)).countP
          (fun d => d.Class == "Major")),
       yellow + ((l.filter (fun d => !c.shouldFilterAlarm d)).countP
          (fun d => d.Class == "Minor"))) := by
  induction l generalizing red yellow with
  | nil => simp [countAlarms]
  | cons d rest ih =>
    by_cases hf : c.shouldFilterAlarm d = true
    · simp [countAlarms, hf, ih]
    · rw [Bool.not_eq_true] at hf
      by_cases hMaj : d.Class = "Major"
      · have hmj : (d.Class == "Major") = true := by rw [hMaj]; decide
        have hmn : (d.Class == "Minor") = false := by rw [hMaj]; decide
        simp [countAlarms, hf, hmj, hmn, ih, List.filter_cons, List.countP_cons,
          Prod.mk.injEq]
        omega
      · by_cases hMin : d.Class = "Minor"
        · have hmj : (d.Class == "Major") = false := by rw [hMin]; decide
          have hmn : (d.Class == "Minor") = true := by rw [hMin]; decide
          simp [countAlarms, hf, hmj, hmn, ih, List.filter_cons, List.countP_cons,
            Prod.mk.injEq]
          omega
        · have hmj : (d.Class == "Major") = false := beq_eq_false_iff_ne.mpr hMaj
          have hmn : (d.Class == "Minor") = false := beq_eq_false_iff_ne.mpr hMin
          simp [countAlarms, hf, hmj, hmn, ih, List.filter_cons, List.countP_cons,
            Prod.mk.injEq]

/-- `AlarmCounter` on two decoded envelopes, in closed form: tallies accumulate
over the concatenated detail lists. -/
theorem alarmCounter_ok (c : RpcClient) (unmarshal : String → Except Err AlarmRpc)
    (sys chas : AlarmRpc)
    (h1 : c.runCommandAndParse unmarshal "show system alarms" = .ok sys)
    (h2 : c.runCommandAndParse unmarshal "show chassis alarms" = .ok chas) :
    c.AlarmCounter unmarshal = .ok
      { RedCount := ((sys.Information.Details ++ chas.Information.Details).filter
          (fun d => !c.shouldFilterAlarm d)).countP (fun d => d.Class == "Major"),
        YellowCount := ((sys.Information.Details ++ chas.Information.Details).filter
          (fun d => !c.shouldFilterAlarm d)).countP (fun d => d.Class == "Minor") } := by
  unfold RpcClient.AlarmCounter
  unfold RpcClient.alarmLoop
  rw [h1]
  simp only
  unfold RpcClient.alarmLoop
  rw [h2]
  simp only
  unfold RpcClient.alarmLoop
  simp [countAlarms_eq, List.filter_append, List.countP_append]

/-! ## C1: error-status of physical interface records -/

/-- C1 is false as stated: the source computes `ErrorStatus` by comparing the
admin and oper STATUS STRINGS, not the derived booleans.  On an envelope entry
with admin `"down"` and oper `"testing"`, both booleans are false (hence equal)
yet the produced record's error-status is true. -/
theorem interfaceStats_errorStatus_bool_claim_false :
    exIfcClient.InterfaceStats exIfcUnmarshal = .ok [physRecordOf exIfcPhy] ∧
    (physRecordOf exIfcPhy).ErrorStatus = true ∧
    (physRecordOf exIfcPhy).AdminStatus = false ∧
    (physRecordOf exIfcPhy).OperStatus = false :=
  ⟨rfl, by decide, by decide, by decide⟩

/-- C1 (amended): for every physical interface record produced by
`RpcClient.InterfaceStats`, the error-status boolean is true iff the envelope's
admin status string differs from its operational status string (the admin and
oper booleans being the literal comparisons of those strings to "up"); in
particular, when both envelope strings equal "up", error-status is false and
both booleans are true. -/
theorem interfaceStats_errorStatus_iff_status_strings_differ
    (c : RpcClient) (unmarshal : String → Except Err InterfaceRpc)
    (x : InterfaceRpc) (phy : PhyInterface)
    (h : c.runCommandAndParse unmarshal "show interfaces statistics detail" = .ok x)
    (hphy : phy ∈ x.Information.Interfaces) :
    c.InterfaceStats unmarshal =
      .ok (x.Information.Interfaces.flatMap (fun p =>
        physRecordOf p :: p.LogicalInterfaces.map (logRecordOf p))) ∧
    physRecordOf phy ∈ x.Information.Interfaces.flatMap (fun p =>
        physRecordOf p :: p.LogicalInterfaces.map (logRecordOf p)) ∧
    ((physRecordOf phy).ErrorStatus = true ↔ ¬(phy.AdminStatus = phy.OperStatus)) ∧
    (physRecordOf phy).AdminStatus = (phy.AdminStatus == "up") ∧
    (physRecordOf phy).OperStatus = (phy.OperStatus == "up") ∧
    (phy.AdminStatus = "up" → phy.OperStatus = "up" →
      (physRecordOf phy).ErrorStatus = false ∧ (physRecordOf phy).AdminStatus = true ∧
      (physRecordOf phy).OperStatus = true) := by
  refine ⟨interfaceStats_ok c unmarshal x h, ?_, ?_, rfl, rfl, ?_⟩
  · exact List.mem_flatMap.mpr ⟨phy, hphy, List.mem_cons_self _ _⟩
  · simp [physRecordOf]
  · intro ha ho
    refine ⟨?_, ?_, ?_⟩ <;> simp [physRecordOf, ha, ho]

theorem interfaceStats_errorStatus_iff_status_strings_differ_witness :
    wIfcClient.runCommandAndParse wIfcUnmarshal "show interfaces statistics detail"
      = .ok wIfcRpc ∧
    (physRecordOf wIfcPhy).ErrorStatus = true ∧
    (physRecordOf wIfcPhy).AdminStatus = true ∧
    (physRecordOf wIfcPhy).OperStatus = false :=
  ⟨rfl,
   ((interfaceStats_errorStatus_iff_status_strings_differ wIfcClient wIfcUnmarshal
      wIfcRpc wIfcPhy rfl (by decide)).2.2.1).mpr (by decide),
   by decide, by decide⟩

/-! ## C2: alarm filtering and tallies -/

/-- C2 is false as stated in its worked example: with filter pattern "fan" both
"Major"/"fan failure" details match the pattern and are excluded, so the code
yields red = 0, yellow = 1, not the claimed red = 1, yellow = 1. -/
theorem alarmCounter_fan_scenario_claim_false :
    exAlarmClient.AlarmCounter exAlarmUnmarshal
      = .ok { RedCount := 0, YellowCount := 1 } ∧
    ¬ exAlarmClient.AlarmCounter exAlarmUnmarshal
      = .ok { RedCount := 1, YellowCount := 1 } :=
  ⟨rfl, fun hb => by
    have h : (Except.ok { RedCount := 0, YellowCount := 1 } : Except Err Alarm.AlarmCounter)
        = .ok { RedCount := 1, YellowCount := 1 } := hb
    simp at h⟩

/-- C2 (amended): `AlarmCounter` excludes exactly the details whose description
or type matches the configured filter, tallies the remaining "Major" details
into red and the remaining "Minor" details into yellow (any other class in
neither), accumulating over both commands; on the worked example with filter
"fan" the result is red = 0, yellow = 1 (both "fan failure" majors match). -/
theorem alarmCounter_filter_tally_spec (c : RpcClient)
    (unmarshal : String → Except Err AlarmRpc) (sys chas : AlarmRpc)
    (h1 : c.runCommandAndParse unmarshal "show system alarms" = .ok sys)
    (h2 : c.runCommandAndParse unmarshal "show chassis alarms" = .ok chas) :
    c.AlarmCounter unmarshal = .ok
      { RedCount := ((sys.Information.Details ++ chas.Information.Details).filter
          (fun d => !c.shouldFilterAlarm d)).countP (fun d => d.Class == "Major"),
        YellowCount := ((sys.Information.Details ++ chas.Information.Details).filter
          (fun d => !c.shouldFilterAlarm d)).countP (fun d => d.Class == "Minor") } ∧
    exAlarmClient.AlarmCounter exAlarmUnmarshal
      = .ok { RedCount := 0, YellowCount := 1 } :=
  ⟨alarmCounter_ok c unmarshal sys chas h1 h2, rfl⟩

theorem alarmCounter_filter_tally_spec_witness :
    exAlarmClient.runCommandAndParse exAlarmUnmarshal "show system alarms"
      = .ok exAlarmSys ∧
    exAlarmClient.runCommandAndParse exAlarmUnmarshal "show chassis alarms"
      = .ok exAlarmChas ∧
    exAlarmClient.AlarmCounter exAlarmUnmarshal = .ok
      { RedCount := ((exAlarmSys.Information.Details ++ exAlarmChas.Information.Details).filter
          (fun d => !exAlarmClient.shouldFilterAlarm d)).countP (fun d => d.Class == "Major"),
        YellowCount := ((exAlarmSys.Information.Details ++ exAlarmChas.Information.Details).filter
          (fun d => !exAlarmClient.shouldFilterAlarm d)).countP (fun d => d.Class == "Minor") } :=
  ⟨rfl, rfl,
   (alarmCounter_filter_tally_spec exAlarmClient exAlarmUnmarshal exAlarmSys exAlarmChas
      rfl rfl).1⟩

/-! ## C10: empty alarm-filter string -/

/-- C10: a client built by `NewClient` with an empty alarm-filter string has no
compiled filter, `shouldFilterAlarm` rejects nothing, and `AlarmCounter` tallies
every detail under its class with no exclusion. -/
theorem newClient_empty_filter_counts_all
    (run : String → Except Err String) (dbg : Bool) (compile : String → (String → Bool))
    (unmarshal : String → Except Err AlarmRpc) (sys chas : AlarmRpc) (d : AlarmDetails)
    (h1 : (NewClient run dbg "" compile).runCommandAndParse unmarshal
      "show system alarms" = .ok sys)
    (h2 : (NewClient run dbg "" compile).runCommandAndParse unmarshal
      "show chassis alarms" = .ok chas) :
    (NewClient run dbg "" compile).alarmFilter = none ∧
    (NewClient run dbg "" compile).shouldFilterAlarm d = false ∧
    (NewClient run dbg "" compile).AlarmCounter unmarshal = .ok
      { RedCount := (sys.Information.Details ++ chas.Information.Details).countP
          (fun d => d.Class == "Major"),
        YellowCount := (sys.Information.Details ++ chas.Information.Details).countP
          (fun d => d.Class == "Minor") } := by
  have hfil : (NewClient run dbg "" compile).alarmFilter = none := rfl
  have hsf : ∀ a, (NewClient run dbg "" compile).shouldFilterAlarm a = false := by
    intro a
    simp [RpcClient.shouldFilterAlarm, hfil]
  refine ⟨hfil, hsf d, ?_⟩
  rw [alarmCounter_ok _ unmarshal sys chas h1 h2]
  simp [hsf]

theorem newClient_empty_filter_counts_all_witness :
    (NewClient w10Run false "" w10Compile).runCommandAndParse w10Unmarshal
      "show system alarms" = .ok w10Sys ∧
    (NewClient w10Run false "" w10Compile).runCommandAndParse w10Unmarshal
      "show chassis alarms" = .ok w10Chas ∧
    (NewClient w10Run false "" w10Compile).alarmFilter = none ∧
    (NewClient w10Run false "" w10Compile).shouldFilterAlarm w10Det = false ∧
    (NewClient w10Run false "" w10Compile).AlarmCounter w10Unmarshal = .ok
      { RedCount := (w10Sys.Information.Details ++ w10Chas.Information.Details).countP
          (fun d => d.Class == "Major"),
        YellowCount := (w10Sys.Information.Details ++ w10Chas.Information.Details).countP
          (fun d => d.Class == "Minor") } := by
  have h := newClient_empty_filter_counts_all w10Run false w10Compile w10Unmarshal
    w10Sys w10Chas w10Det rfl rfl
  exact ⟨rfl, rfl, h.1, h.2.1, h.2.2⟩

/-! ## C9: ISIS adjacency aggregate -/

/-- The adjacency loop in closed form: `up` counts the "Up" entries, `total`
counts all entries. -/
theorem isisLoop_eq (l : List IsisAdjacencyEntry) (up total : Nat) :
    isisLoop l up total =
      (up + l.countP (fun a => a.AdjacencyState == "Up"), total + l.length) := by
  induction l generalizing up total with
  | nil => simp [isisLoop]
  | cons a rest ih =>
    by_cases hu : (a.AdjacencyState == "Up") = true
    · simp [isisLoop, hu, ih, List.countP_cons, Prod.mk.injEq]
      omega
    · rw [Bool.not_eq_true] at hu
      simp [isisLoop, hu, ih, List.countP_cons, Prod.mk.injEq]
      omega

/-- C9: the aggregate returned by `RpcClient.IsisAdjancies` has `Total` equal
to the number of adjacency entries and `Up` equal to the number of entries
whose state equals "Up"; both are naturals, so `0 ≤ Up ≤ Total`. -/
theorem isisAdjacencies_up_le_total (c : RpcClient)
    (unmarshal : String → Except Err IsisRpc) (x : IsisRpc)
    (h : c.runCommandAndParse unmarshal "show isis adjacency" = .ok x) :
    c.IsisAdjancies unmarshal = .ok
      { Up := x.Information.Adjacencies.countP (fun a => a.AdjacencyState == "Up"),
        Total := x.Information.Adjacencies.length } ∧
    x.Information.Adjacencies.countP (fun a => a.AdjacencyState == "Up")
      ≤ x.Information.Adjacencies.length := by
  constructor
  · unfold RpcClient.IsisAdjancies
    rw [h]
    simp only [isisLoop_eq, Nat.zero_add]
  · exact List.countP_le_length _

theorem isisAdjacencies_up_le_total_witness :
    wIsisClient.runCommandAndParse wIsisUnmarshal "show isis adjacency" = .ok wIsisRpc ∧
    wIsisClient.IsisAdjancies wIsisUnmarshal = .ok { Up := 2, Total := 3 } ∧
    (2 : Nat) ≤ 3 := by
  have h := isisAdjacencies_up_le_total wIsisClient wIsisUnmarshal wIsisRpc rfl
  exact ⟨rfl, h.1, by decide⟩

/-! ## C8: routing tables preserve protocol order -/

/-- C8: `RpcClient.RoutingTables` produces one record per table whose protocol
list is exactly the table's envelope protocol entries mapped in envelope order
(`List.map` preserves order; nothing is sorted or reordered). -/
theorem routingTables_preserve_protocol_order (c : RpcClient)
    (unmarshal : String → Except Err RouteRpc) (x : RouteRpc)
    (h : c.runCommandAndParse unmarshal "show route summary" = .ok x) :
    c.RoutingTables unmarshal = .ok (x.Information.Tables.map (fun table =>
      { Name := table.Name
        MaxRoutes := table.MaxRoutes
        ActiveRoutes := table.ActiveRoutes
        TotalRoutes := table.TotalRoutes
        Protocols := table.Protocols.map protoRecordOf })) := by
  unfold RpcClient.RoutingTables
  rw [h]
  refine congrArg Except.ok ?_
  have hf : (fun (tables : List Route.RoutingTable) (table : RouteTableRpcEntry) =>
      tables ++ [{ Name := table.Name
                   MaxRoutes := table.MaxRoutes
                   ActiveRoutes := table.ActiveRoutes
                   TotalRoutes := table.TotalRoutes
                   Protocols := table.Protocols.foldl
                     (fun protos proto => protos ++ [protoRecordOf proto]) [] }])
      = (fun tables table =>
      tables ++ [{ Name := table.Name
                   MaxRoutes := table.MaxRoutes
                   ActiveRoutes := table.ActiveRoutes
                   TotalRoutes := table.TotalRoutes
                   Protocols := table.Protocols.map protoRecordOf }]) := by
    funext tables table
    rw [foldl_append_one]
    simp
  rw [hf, foldl_append_one]
  simp

theorem routingTables_preserve_protocol_order_witness :
    wRouteClient.runCommandAndParse wRouteUnmarshal "show route summary" = .ok wRouteRpc ∧
    wRouteClient.RoutingTables wRouteUnmarshal = .ok
      [{ Name := "inet.0", MaxRoutes := 0, ActiveRoutes := 155, TotalRoutes := 205,
         Protocols :=
           [{ Name := "direct", Routes := 5, ActiveRoutes := 5 },
            { Name := "bgp", Routes := 200, ActiveRoutes := 150 }] }] ∧
    (wRouteTable.Protocols.map protoRecordOf).map Route.ProtocolRouteCount.Name
      = ["direct", "bgp"] := by
  have h := routingTables_preserve_protocol_order wRouteClient wRouteUnmarshal wRouteRpc rfl
  exact ⟨rfl, h, by decide⟩

/-! ## C3 and C7: optical diagnostics -/

/-- A skip-or-append loop in closed form: kept elements are mapped in order. -/
theorem foldl_filter_append {α β : Type} (p : α → Bool) (f : α → β)
    (l : List α) (init : List β) :
    l.foldl (fun acc a => if p a then acc else acc ++ [f a]) init
      = init ++ (l.filter (fun a => !p a)).map f := by
  induction l generalizing init with
  | nil => simp
  | cons a t ih =>
    cases hp : p a
    · simp [List.foldl_cons, List.filter_cons, hp, ih]
    · simp [List.foldl_cons, List.filter_cons, hp, ih]

/-- The diagnostics loop in closed form: "N/A" entries are dropped, the rest
map to exactly one record each, in envelope order. -/
theorem diagFold_eq (parseFloat : String → Option ℚ) (l : List OpticsDiagEntry)
    (init : List Diag.InterfaceDiagnostics) :
    l.foldl (fun acc diag =>
      if diag.Diagnostics.NA == "N/A" then acc
      else acc ++ [diagRecordOf parseFloat diag]) init
      = init ++ (l.filter (fun g => !(g.Diagnostics.NA == "N/A"))).map
          (diagRecordOf parseFloat) := by
  exact foldl_filter_append (fun diag => diag.Diagnostics.NA == "N/A")
    (diagRecordOf parseFloat) l init

/-- `InterfaceDiagnostics` on a decoded envelope, in closed form. -/
theorem interfaceDiagnostics_ok (c : RpcClient)
    (unmarshal : String → Except Err InterfaceDiagnosticsRpc)
    (parseFloat : String → Option ℚ) (x : InterfaceDiagnosticsRpc)
    (h : c.runCommandAndParse unmarshal "show interfaces diagnostics optics" = .ok x) :
    c.InterfaceDiagnostics unmarshal parseFloat =
      .ok ((x.Information.Diagnostics.filter
        (fun g => !(g.Diagnostics.NA == "N/A"))).map (diagRecordOf parseFloat)) := by
  unfold RpcClient.InterfaceDiagnostics
  rw [h]
  refine congrArg Except.ok ?_
  rw [diagFold_eq]
  simp

/-- Field-level description of `diagRecordOf`: base fields are copied, each dBm
field is the parse result or zero, and the branch on `ModuleVoltage > 0` sets
exactly one of the two RX-power representations, the other staying zero. -/
theorem diagRecordOf_fields (parseFloat : String → Option ℚ) (g : OpticsDiagEntry) :
    (diagRecordOf parseFloat g).Name = g.Name ∧
    (diagRecordOf parseFloat g).LaserBiasCurrent = g.Diagnostics.LaserBiasCurrent ∧
    (diagRecordOf parseFloat g).LaserOutputPower = g.Diagnostics.LaserOutputPower ∧
    (diagRecordOf parseFloat g).ModuleTemperature = g.Diagnostics.ModuleTemperature.Value ∧
    (diagRecordOf parseFloat g).LaserOutputPowerDbm =
      (parseFloat g.Diagnostics.LaserOutputPowerDbm).getD 0 ∧
    (diagRecordOf parseFloat g).ModuleVoltage =
      (if 0 < g.Diagnostics.ModuleVoltage then g.Diagnostics.ModuleVoltage else 0) ∧
    (diagRecordOf parseFloat g).RxSignalAvgOpticalPower =
      (if 0 < g.Diagnostics.ModuleVoltage then g.Diagnostics.RxSignalAvgOpticalPower else 0) ∧
    (diagRecordOf parseFloat g).RxSignalAvgOpticalPowerDbm =
      (if 0 < g.Diagnostics.ModuleVoltage
       then (parseFloat g.Diagnostics.RxSignalAvgOpticalPowerDbm).getD 0 else 0) ∧
    (diagRecordOf parseFloat g).LaserRxOpticalPower =
      (if 0 < g.Diagnostics.ModuleVoltage then 0 else g.Diagnostics.LaserRxOpticalPower) ∧
    (diagRecordOf parseFloat g).LaserRxOpticalPowerDbm =
      (if 0 < g.Diagnostics.ModuleVoltage then 0
       else (parseFloat g.Diagnostics.LaserRxOpticalPowerDbm).getD 0) := by
  unfold diagRecordOf
  by_cases hmv : 0 < g.Diagnostics.ModuleVoltage
  · cases hp0 : parseFloat g.Diagnostics.LaserOutputPowerDbm <;>
      cases hp1 : parseFloat g.Diagnostics.RxSignalAvgOpticalPowerDbm <;>
        simp [hmv, hp0, hp1]
  · cases hp0 : parseFloat g.Diagnostics.LaserOutputPowerDbm <;>
      cases hp1 : parseFloat g.Diagnostics.LaserRxOpticalPowerDbm <;>
        simp [hmv, hp0, hp1]

/-- C3: a "N/A" entry yields zero records and every other entry exactly one
(the filter-map closed form); in that record exactly one of the two RX-power
representations is populated, selected on module voltage > 0, the other
representation's fields staying at their zero defaults — never both, never
neither. -/
theorem interfaceDiagnostics_rx_branch_selection (c : RpcClient)
    (unmarshal : String → Except Err InterfaceDiagnosticsRpc)
    (parseFloat : String → Option ℚ) (x : InterfaceDiagnosticsRpc) (g : OpticsDiagEntry)
    (h : c.runCommandAndParse unmarshal "show interfaces diagnostics optics" = .ok x) :
    c.InterfaceDiagnostics unmarshal parseFloat =
      .ok ((x.Information.Diagnostics.filter
        (fun e => !(e.Diagnostics.NA == "N/A"))).map (diagRecordOf parseFloat)) ∧
    (diagRecordOf parseFloat g).ModuleVoltage =
      (if 0 < g.Diagnostics.ModuleVoltage then g.Diagnostics.ModuleVoltage else 0) ∧
    (diagRecordOf parseFloat g).RxSignalAvgOpticalPower =
      (if 0 < g.Diagnostics.ModuleVoltage then g.Diagnostics.RxSignalAvgOpticalPower else 0) ∧
    (diagRecordOf parseFloat g).RxSignalAvgOpticalPowerDbm =
      (if 0 < g.Diagnostics.ModuleVoltage
       then (parseFloat g.Diagnostics.RxSignalAvgOpticalPowerDbm).getD 0 else 0) ∧
    (diagRecordOf parseFloat g).LaserRxOpticalPower =
      (if 0 < g.Diagnostics.ModuleVoltage then 0 else g.Diagnostics.LaserRxOpticalPower) ∧
    (diagRecordOf parseFloat g).LaserRxOpticalPowerDbm =
      (if 0 < g.Diagnostics.ModuleVoltage then 0
       else (parseFloat g.Diagnostics.LaserRxOpticalPowerDbm).getD 0) := by
  have hf := diagRecordOf_fields parseFloat g
  exact ⟨interfaceDiagnostics_ok c unmarshal parseFloat x h,
    hf.2.2.2.2.2.1, hf.2.2.2.2.2.2.1, hf.2.2.2.2.2.2.2.1,
    hf.2.2.2.2.2.2.2.2.1, hf.2.2.2.2.2.2.2.2.2⟩

theorem interfaceDiagnostics_rx_branch_selection_witness :
    wDiagClient.runCommandAndParse wDiagUnmarshal "show interfaces diagnostics optics"
      = .ok wDiagRpc ∧
    wDiagClient.InterfaceDiagnostics wDiagUnmarshal wDiagParse
      = .ok [diagRecordOf wDiagParse wDiagEntryA] ∧
    (diagRecordOf wDiagParse wDiagEntryA).ModuleVoltage = 3 ∧
    (diagRecordOf wDiagParse wDiagEntryA).RxSignalAvgOpticalPower = 2 ∧
    (diagRecordOf wDiagParse wDiagEntryA).RxSignalAvgOpticalPowerDbm = -3 ∧
    (diagRecordOf wDiagParse wDiagEntryA).LaserRxOpticalPower = 0 ∧
    (diagRecordOf wDiagParse wDiagEntryA).LaserRxOpticalPowerDbm = 0 := by
  have h := interfaceDiagnostics_rx_branch_selection wDiagClient wDiagUnmarshal
    wDiagParse wDiagRpc wDiagEntryA rfl
  exact ⟨rfl, h.1, rfl, rfl, rfl, rfl, rfl⟩

/-- C7: a failed dBm parse leaves the corresponding output field at zero and
the entry's record is still produced inside a successful (error-free) result. -/
theorem diagnostics_dbm_parse_failure_silent (c : RpcClient)
    (unmarshal : String → Except Err InterfaceDiagnosticsRpc)
    (parseFloat : String → Option ℚ) (x : InterfaceDiagnosticsRpc) (g : OpticsDiagEntry)
    (h : c.runCommandAndParse unmarshal "show interfaces diagnostics optics" = .ok x)
    (hg : g ∈ x.Information.Diagnostics)
    (hna : (g.Diagnostics.NA == "N/A") = false) :
    c.InterfaceDiagnostics unmarshal parseFloat =
      .ok ((x.Information.Diagnostics.filter
        (fun e => !(e.Diagnostics.NA == "N/A"))).map (diagRecordOf parseFloat)) ∧
    diagRecordOf parseFloat g ∈ (x.Information.Diagnostics.filter
        (fun e => !(e.Diagnostics.NA == "N/A"))).map (diagRecordOf parseFloat) ∧
    (parseFloat g.Diagnostics.LaserOutputPowerDbm = none →
      (diagRecordOf parseFloat g).LaserOutputPowerDbm = 0) ∧
    (0 < g.Diagnostics.ModuleVoltage →
      parseFloat g.Diagnostics.RxSignalAvgOpticalPowerDbm = none →
      (diagRecordOf parseFloat g).RxSignalAvgOpticalPowerDbm = 0) ∧
    (¬ 0 < g.Diagnostics.ModuleVoltage →
      parseFloat g.Diagnostics.LaserRxOpticalPowerDbm = none →
      (diagRecordOf parseFloat g).LaserRxOpticalPowerDbm = 0) := by
  have hf := diagRecordOf_fields parseFloat g
  refine ⟨interfaceDiagnostics_ok c unmarshal parseFloat x h, ?_, ?_, ?_, ?_⟩
  · exact List.mem_map.mpr ⟨g, List.mem_filter.mpr ⟨hg, by simp [hna]⟩, rfl⟩
  · intro hp
    rw [hf.2.2.2.2.1, hp]
    rfl
  · intro hmv hp
    rw [hf.2.2.2.2.2.2.2.1, if_pos hmv, hp]
    rfl
  · intro hmv hp
    rw [hf.2.2.2.2.2.2.2.2.2, if_neg hmv, hp]
    rfl

theorem diagnostics_dbm_parse_failure_silent_witness :
    wDiag7Client.runCommandAndParse wDiag7Unmarshal "show interfaces diagnostics optics"
      = .ok wDiag7Rpc ∧
    wDiag7Entry ∈ wDiag7Rpc.Information.Diagnostics ∧
    (wDiag7Entry.Diagnostics.NA == "N/A") = false ∧
    wDiag7Parse wDiag7Entry.Diagnostics.LaserOutputPowerDbm = none ∧
    wDiag7Client.InterfaceDiagnostics wDiag7Unmarshal wDiag7Parse
      = .ok [diagRecordOf wDiag7Parse wDiag7Entry] ∧
    (diagRecordOf wDiag7Parse wDiag7Entry).LaserOutputPowerDbm = 0 ∧
    (diagRecordOf wDiag7Parse wDiag7Entry).LaserRxOpticalPowerDbm = 0 := by
  have h := diagnostics_dbm_parse_failure_silent wDiag7Client wDiag7Unmarshal
    wDiag7Parse wDiag7Rpc wDiag7Entry rfl (by decide) (by decide)
  exact ⟨rfl, by decide, by decide, rfl, h.1, h.2.2.1 rfl, h.2.2.2.2 (by decide) rfl⟩

/-! ## C4: environment-item deduplication -/

theorem alookup_nil (k : String) : alookup k [] = none := rfl

theorem optOr_none (a : Option Int) : optOr a none = a := by
  cases a <;> rfl

theorem optOr_assoc (a b c : Option Int) :
    optOr (optOr a b) c = optOr a (optOr b c) := by
  cases a <;> rfl

theorem alookup_append (k : String) (l1 l2 : List (String × Int)) :
    alookup k (l1 ++ l2) = optOr (alookup k l1) (alookup k l2) := by
  induction l1 with
  | nil => simp [alookup, optOr]
  | cons p t ih =>
    by_cases hp : (p.1 == k) = true
    · simp [alookup, hp, optOr]
    · rw [Bool.not_eq_true] at hp
      simp [alookup, hp, ih]

theorem bool_false_not_true {b : Bool} (h : b = false) : ¬ (b = true) := by
  rw [h]
  exact Bool.false_ne_true

theorem alookup_cons (k2 : String) (q : String × Int) (rest : List (String × Int)) :
    alookup k2 (q :: rest) = if q.1 == k2 then some q.2 else alookup k2 rest := rfl

theorem alookup_single (a : String) (b : Int) (k2 : String) :
    alookup k2 [(a, b)] = if a == k2 then some b else none := rfl

theorem optOr_ite (c : Bool) (v : Int) (x : Option Int) :
    optOr (if c then some v else none) x = if c then some v else x := by
  cases c <;> rfl

theorem mapSet_cons (p : String × Int) (l : List (String × Int)) (k : String) (v : Int) :
    mapSet (p :: l) k v = if p.1 == k then (k, v) :: l else p :: mapSet l k v := rfl

theorem akeys_cons (p : String × Int) (l : List (String × Int)) :
    akeys (p :: l) = p.1 :: akeys l := rfl

theorem alookup_mapSet (l : List (String × Int)) (k : String) (v : Int) (k2 : String) :
    alookup k2 (mapSet l k v) = if k == k2 then some v else alookup k2 l := by
  induction l with
  | nil => rfl
  | cons p t ih =>
    rw [mapSet_cons]
    cases hp : (p.1 == k) with
    | true =>
      rw [if_pos rfl]
      cases hk : (k == k2) with
      | true =>
        rw [if_pos rfl]
        show (if k == k2 then some v else alookup k2 t) = some v
        rw [if_pos hk]
      | false =>
        rw [if_neg Bool.false_ne_true]
        show (if k == k2 then some v else alookup k2 t) = alookup k2 (p :: t)
        have hp2 : (p.1 == k2) = false := by
          rw [eq_of_beq hp]
          exact hk
        rw [if_neg (bool_false_not_true hk), alookup_cons,
          if_neg (bool_false_not_true hp2)]
    | false =>
      rw [if_neg Bool.false_ne_true, alookup_cons, ih, alookup_cons]
      cases hq : (p.1 == k2) with
      | true =>
        rw [if_pos rfl]
        cases hk : (k == k2) with
        | true =>
          exfalso
          have hcontra : (p.1 == k) = true := by
            rw [eq_of_beq hq, ← eq_of_beq hk]
            exact beq_self_eq_true k
          rw [hp] at hcontra
          exact Bool.false_ne_true hcontra
        | false =>
          rw [if_neg Bool.false_ne_true, if_pos rfl]
      | false =>
        rw [if_neg Bool.false_ne_true]
        rw [if_neg Bool.false_ne_true]

theorem mem_akeys_mapSet (l : List (String × Int)) (k : String) (v : Int) (a : String)
    (h : a ∈ akeys (mapSet l k v)) : a ∈ akeys l ∨ a = k := by
  induction l with
  | nil => exact Or.inr (List.mem_singleton.mp h)
  | cons p t ih =>
    cases hp : (p.1 == k) with
    | true =>
      rw [mapSet_cons, if_pos hp, akeys_cons] at h
      rcases List.mem_cons.mp h with hh | ht
      · exact Or.inr hh
      · refine Or.inl ?_
        rw [akeys_cons]
        exact List.mem_cons_of_mem _ ht
    | false =>
      rw [mapSet_cons, if_neg (bool_false_not_true hp), akeys_cons] at h
      rcases List.mem_cons.mp h with hh | ht
      · refine Or.inl ?_
        rw [akeys_cons]
        exact List.mem_cons.mpr (Or.inl hh)
      · rcases ih ht with h1 | h2
        · refine Or.inl ?_
          rw [akeys_cons]
          exact List.mem_cons_of_mem _ h1
        · exact Or.inr h2

theorem akeys_nodup_mapSet (l : List (String × Int)) (k : String) (v : Int)
    (h : (akeys l).Nodup) : (akeys (mapSet l k v)).Nodup := by
  induction l with
  | nil => exact List.nodup_singleton k
  | cons p t ih =>
    rw [akeys_cons, List.nodup_cons] at h
    cases hp : (p.1 == k) with
    | true =>
      rw [mapSet_cons, if_pos hp, akeys_cons, List.nodup_cons]
      refine ⟨?_, h.2⟩
      rw [← eq_of_beq hp]
      exact h.1
    | false =>
      rw [mapSet_cons, if_neg (bool_false_not_true hp), akeys_cons, List.nodup_cons]
      refine ⟨?_, ih h.2⟩
      intro hmem
      rcases mem_akeys_mapSet t k v p.1 hmem with h1 | h2
      · exact h.1 h1
      · have hcontra : (p.1 == k) = true := by
          rw [h2]
          exact beq_self_eq_true k
        rw [hp] at hcontra
        exact Bool.false_ne_true hcontra

/-- The dedup fold keeps pairwise-distinct keys, and looking a key up in the
result returns the LAST temperature inserted for it (lookup in the reversed
insertion list), falling back to the initial accumulator. -/
theorem envFold_spec (items : List EnvironmentItemRpcEntry) (acc : List (String × Int))
    (hacc : (akeys acc).Nodup) :
    (akeys (envFold items acc)).Nodup ∧
    ∀ k, alookup k (envFold items acc)
      = optOr (alookup k (withTemp items).reverse) (alookup k acc) := by
  induction items generalizing acc with
  | nil =>
    refine ⟨hacc, fun k => ?_⟩
    simp [envFold, withTemp, alookup, optOr]
  | cons item rest ih =>
    cases htemp : item.Temperature with
    | none =>
      have hstep : envFold (item :: rest) acc = envFold rest acc := by
        simp [envFold, List.foldl_cons, htemp]
      have hwt : withTemp (item :: rest) = withTemp rest := by
        simp [withTemp, List.filterMap_cons, htemp]
      rw [hstep, hwt]
      exact ih acc hacc
    | some t =>
      have hstep : envFold (item :: rest) acc
          = envFold rest (mapSet acc item.Name t.Value) := by
        simp [envFold, List.foldl_cons, htemp]
      have hwt : withTemp (item :: rest) = (item.Name, t.Value) :: withTemp rest := by
        simp [withTemp, List.filterMap_cons, htemp]
      rw [hstep, hwt]
      obtain ⟨hnd, hlk⟩ := ih (mapSet acc item.Name t.Value)
        (akeys_nodup_mapSet acc item.Name t.Value hacc)
      refine ⟨hnd, fun k => ?_⟩
      rw [hlk k, alookup_mapSet, List.reverse_cons, alookup_append, optOr_assoc,
        alookup_single, optOr_ite]

/-- On a keys-nodup association list, membership of a pair is the same as the
lookup returning its value. -/
theorem mem_iff_alookup (L : List (String × Int)) (hnd : (akeys L).Nodup)
    (n : String) (v : Int) : (n, v) ∈ L ↔ alookup n L = some v := by
  induction L with
  | nil => simp [alookup]
  | cons p t ih =>
    rw [akeys_cons, List.nodup_cons] at hnd
    rw [alookup_cons]
    cases hp : (p.1 == n) with
    | true =>
      rw [if_pos rfl]
      have hpn : p.1 = n := eq_of_beq hp
      constructor
      · intro hmem
        rcases List.mem_cons.mp hmem with hh | ht
        · rw [← hh]
        · exfalso
          apply hnd.1
          rw [hpn]
          exact List.mem_map.mpr ⟨(n, v), ht, rfl⟩
      · intro hlk
        have hv : p.2 = v := Option.some.inj hlk
        refine List.mem_cons.mpr (Or.inl ?_)
        rw [← hpn, ← hv]
    | false =>
      rw [if_neg Bool.false_ne_true]
      constructor
      · intro hmem
        rcases List.mem_cons.mp hmem with hh | ht
        · exfalso
          have hcontra : (p.1 == n) = true := by
            rw [← hh]
            exact beq_self_eq_true n
          rw [hp] at hcontra
          exact Bool.false_ne_true hcontra
        · exact (ih hnd.2).mp ht
      · intro hlk
        exact List.mem_cons.mpr (Or.inr ((ih hnd.2).mpr hlk))

/-- C4: `EnvironmentItems` skips items lacking a temperature, deduplicates by
name with last write winning, and the output's names are pairwise distinct: a
record `{n, v}` appears in the output exactly when the last envelope item named
`n` that carries a temperature carries `v`. -/
theorem environmentItems_dedup_last_write_wins (c : RpcClient)
    (unmarshal : String → Except Err EnvironmentRpc) (x : EnvironmentRpc)
    (h : c.runCommandAndParse unmarshal "show chassis environment" = .ok x) :
    c.EnvironmentItems unmarshal = .ok ((envFold x.Information.Items []).map
      (fun p => { Name := p.1, Temperature := p.2 })) ∧
    (((envFold x.Information.Items []).map
      (fun p => ({ Name := p.1, Temperature := p.2 } : Environment.EnvironmentItem))).map
        Environment.EnvironmentItem.Name).Nodup ∧
    ∀ n v, ({ Name := n, Temperature := v } : Environment.EnvironmentItem)
        ∈ (envFold x.Information.Items []).map
          (fun p => ({ Name := p.1, Temperature := p.2 } : Environment.EnvironmentItem))
      ↔ alookup n (withTemp x.Information.Items).reverse = some v := by
  obtain ⟨hnd, hlk⟩ := envFold_spec x.Information.Items [] (by simp [akeys])
  refine ⟨?_, ?_, ?_⟩
  · unfold RpcClient.EnvironmentItems
    rw [h]
  · have hmm : ((envFold x.Information.Items []).map
        (fun p => ({ Name := p.1, Temperature := p.2 } : Environment.EnvironmentItem))).map
          Environment.EnvironmentItem.Name = akeys (envFold x.Information.Items []) := by
      rw [List.map_map]
      rfl
    rw [hmm]
    exact hnd
  · intro n v
    constructor
    · intro hmem
      obtain ⟨p, hp, hpe⟩ := List.mem_map.mp hmem
      have hp1 : p.1 = n := congrArg Environment.EnvironmentItem.Name hpe
      have hp2 : p.2 = v := congrArg Environment.EnvironmentItem.Temperature hpe
      have hpnv : (n, v) ∈ envFold x.Information.Items [] := by
        rw [← hp1, ← hp2]
        exact hp
      have hsome := (mem_iff_alookup _ hnd n v).mp hpnv
      rw [hlk n, alookup_nil, optOr_none] at hsome
      exact hsome
    · intro hlkrev
      have hsome : alookup n (envFold x.Information.Items []) = some v := by
        rw [hlk n, alookup_nil, optOr_none]
        exact hlkrev
      have hmem := (mem_iff_alookup _ hnd n v).mpr hsome
      exact List.mem_map.mpr ⟨(n, v), hmem, rfl⟩

theorem environmentItems_dedup_last_write_wins_witness :
    wEnvClient.runCommandAndParse wEnvUnmarshal "show chassis environment" = .ok wEnvRpc ∧
    wEnvClient.EnvironmentItems wEnvUnmarshal
      = .ok [{ Name := "PSU 0", Temperature := 45 }] ∧
    alookup "PSU 0" (withTemp wEnvRpc.Information.Items).reverse = some 45 ∧
    ({ Name := "PSU 0", Temperature := 45 } : Environment.EnvironmentItem)
      ∈ [({ Name := "PSU 0", Temperature := 45 } : Environment.EnvironmentItem)] := by
  have h := environmentItems_dedup_last_write_wins wEnvClient wEnvUnmarshal wEnvRpc rfl
  exact ⟨rfl, h.1, by decide, (h.2.2 "PSU 0" 45).mpr (by decide)⟩

/-! ## C6: logical interface records and sample emission -/

theorem foldl_append_blocks {α β : Type} (g : α → List β) (l : List α) (init : List β) :
    l.foldl (fun acc a => acc ++ g a) init = init ++ l.flatMap g := by
  induction l generalizing init with
  | nil => simp
  | cons a t ih => simp [List.foldl_cons, ih, List.flatMap_cons]

/-- `Collect` on a successful datasource call, in closed form: every record's
samples in order. -/
theorem collect_ok (stats : List Interfaces.InterfaceStats) (lv : List String) :
    Interfaces.Collect (.ok stats) lv
      = .ok (stats.flatMap (fun s => Interfaces.collectForInterface s lv)) := by
  unfold Interfaces.Collect
  refine congrArg Except.ok ?_
  rw [foldl_append_blocks]
  simp

/-- C6: each nested logical interface yields its own non-physical record
carrying only name, description, byte counters and the parent's hardware
address (all other fields at Go zero defaults), and `collectForInterface`
emits only the two byte-counter samples for a non-physical record but all
nine samples for a physical one; `Collect` concatenates the per-record
samples over the record list. -/
theorem logical_records_and_sample_emission (c : RpcClient)
    (unmarshal : String → Except Err InterfaceRpc) (x : InterfaceRpc)
    (phy : PhyInterface) (lg : LogicalInterface)
    (s s2 : Interfaces.InterfaceStats) (lv : List String)
    (stats : List Interfaces.InterfaceStats)
    (h : c.runCommandAndParse unmarshal "show interfaces statistics detail" = .ok x)
    (hphy : phy ∈ x.Information.Interfaces) (hlg : lg ∈ phy.LogicalInterfaces)
    (hs : s.IsPhysical = false) (hs2 : s2.IsPhysical = true) :
    c.InterfaceStats unmarshal =
      .ok (x.Information.Interfaces.flatMap (fun p =>
        physRecordOf p :: p.LogicalInterfaces.map (logRecordOf p))) ∧
    logRecordOf phy lg ∈ x.Information.Interfaces.flatMap (fun p =>
        physRecordOf p :: p.LogicalInterfaces.map (logRecordOf p)) ∧
    (logRecordOf phy lg).IsPhysical = false ∧
    (logRecordOf phy lg).Name = lg.Name ∧
    (logRecordOf phy lg).Description = lg.Description ∧
    (logRecordOf phy lg).Mac = phy.MacAddress ∧
    (logRecordOf phy lg).ReceiveBytes = lg.Stats.InputBytes ∧
    (logRecordOf phy lg).TransmitBytes = lg.Stats.OutputBytes ∧
    (logRecordOf phy lg).AdminStatus = false ∧
    (logRecordOf phy lg).OperStatus = false ∧
    (logRecordOf phy lg).ErrorStatus = false ∧
    (logRecordOf phy lg).ReceiveErrors = 0 ∧
    (logRecordOf phy lg).ReceiveDrops = 0 ∧
    (logRecordOf phy lg).TransmitErrors = 0 ∧
    (logRecordOf phy lg).TransmitDrops = 0 ∧
    (Interfaces.collectForInterface s lv).map Metric.desc
      = [.receiveBytes, .transmitBytes] ∧
    (Interfaces.collectForInterface s2 lv).map Metric.desc
      = [.receiveBytes, .transmitBytes, .adminUp, .up, .errorStatus,
         .transmitErrors, .transmitDrops, .receiveErrors, .receiveDrops] ∧
    Interfaces.Collect (.ok stats) lv
      = .ok (stats.flatMap (fun r => Interfaces.collectForInterface r lv)) := by
  refine ⟨interfaceStats_ok c unmarshal x h, ?_, rfl, rfl, rfl, rfl, rfl, rfl, rfl, rfl,
    rfl, rfl, rfl, rfl, rfl, ?_, ?_, collect_ok stats lv⟩
  · exact List.mem_flatMap.mpr
      ⟨phy, hphy, List.mem_cons_of_mem _ (List.mem_map.mpr ⟨lg, hlg, rfl⟩)⟩
  · simp [Interfaces.collectForInterface, hs]
  · simp [Interfaces.collectForInterface, hs2]

theorem logical_records_and_sample_emission_witness :
    wC6Client.runCommandAndParse wC6Unmarshal "show interfaces statistics detail"
      = .ok wC6Rpc ∧
    wC6Phy ∈ wC6Rpc.Information.Interfaces ∧
    wC6Lg ∈ wC6Phy.LogicalInterfaces ∧
    (logRecordOf wC6Phy wC6Lg).IsPhysical = false ∧
    (physRecordOf wC6Phy).IsPhysical = true ∧
    wC6Client.InterfaceStats wC6Unmarshal
      = .ok [physRecordOf wC6Phy, logRecordOf wC6Phy wC6Lg] ∧
    (Interfaces.collectForInterface (logRecordOf wC6Phy wC6Lg) ["router1"]).map
        Metric.desc = [.receiveBytes, .transmitBytes] ∧
    (Interfaces.collectForInterface (physRecordOf wC6Phy) ["router1"]).map
        Metric.desc = [.receiveBytes, .transmitBytes, .adminUp, .up, .errorStatus,
          .transmitErrors, .transmitDrops, .receiveErrors, .receiveDrops] ∧
    (logRecordOf wC6Phy wC6Lg).Mac = "aa:bb:cc:dd:ee:ff" := by
  have h := logical_records_and_sample_emission wC6Client wC6Unmarshal wC6Rpc
    wC6Phy wC6Lg (logRecordOf wC6Phy wC6Lg) (physRecordOf wC6Phy) ["router1"]
    [physRecordOf wC6Phy, logRecordOf wC6Phy wC6Lg]
    rfl (by decide) (by decide) (by decide) (by decide)
  refine ⟨rfl, by decide, by decide, by decide, by decide, h.1, ?_, ?_, by decide⟩
  · exact h.2.2.2.2.2.2.2.2.2.2.2.2.2.2.2.1
  · exact h.2.2.2.2.2.2.2.2.2.2.2.2.2.2.2.2.1

/-! ## C5: errors abort with no partial records -/

/-- C5: a channel error or a decode error makes `runCommandAndParse` — and with
it the domain operation — return `Except.error`, which carries no records at
all; in `AlarmCounter` a failure of the second command discards the first
command's tallies; an erroring datasource makes `Collect` return the error
with zero samples emitted. -/
theorem errors_abort_without_partial_records {α : Type} (c : RpcClient)
    (unmarshal : String → Except Err α) (unmarshal2 : String → Except Err InterfaceRpc)
    (unmarshalA : String → Except Err AlarmRpc)
    (cmd : String) (e : Err) (b : String) (sys : AlarmRpc) (lv : List String) :
    (c.run (cmd ++ " | display xml") = .error e →
      c.runCommandAndParse unmarshal cmd = .error e) ∧
    (c.run (cmd ++ " | display xml") = .ok b → unmarshal b = .error e →
      c.runCommandAndParse unmarshal cmd = .error e) ∧
    (c.runCommandAndParse unmarshal2 "show interfaces statistics detail" = .error e →
      c.InterfaceStats unmarshal2 = .error e) ∧
    (c.runCommandAndParse unmarshalA "show system alarms" = .ok sys →
      c.runCommandAndParse unmarshalA "show chassis alarms" = .error e →
      c.AlarmCounter unmarshalA = .error e) ∧
    Interfaces.Collect (.error e) lv = .error e := by
  refine ⟨?_, ?_, ?_, ?_, rfl⟩
  · intro hrun
    unfold RpcClient.runCommandAndParse
    rw [hrun]
  · intro hrun hum
    unfold RpcClient.runCommandAndParse
    rw [hrun]
    exact hum
  · intro h2
    unfold RpcClient.InterfaceStats
    rw [h2]
  · intro hsys hchas
    unfold RpcClient.AlarmCounter
    unfold RpcClient.alarmLoop
    rw [hsys]
    simp only
    unfold RpcClient.alarmLoop
    rw [hchas]

theorem errors_abort_without_partial_records_witness :
    wErrClient.run ("show chassis alarms" ++ " | display xml") = .error "boom" ∧
    wErrClient.runCommandAndParse wErrUnmarshal "show system alarms" = .ok wErrSys ∧
    wErrClient.runCommandAndParse wErrUnmarshal "show chassis alarms" = .error "boom" ∧
    wErrClient.AlarmCounter wErrUnmarshal = .error "boom" ∧
    wErrClient.runCommandAndParse wErrUnmarshalBad "show system alarms"
      = .error "bad xml" ∧
    Interfaces.Collect (.error "link down") ["router1"] = .error "link down" := by
  have hA := errors_abort_without_partial_records wErrClient wErrUnmarshal
    wErrUnmarshalIfc wErrUnmarshal "show chassis alarms" "boom" "" wErrSys ["router1"]
  have hB := errors_abort_without_partial_records wErrClient wErrUnmarshalBad
    wErrUnmarshalIfc wErrUnmarshal "show system alarms" "bad xml"
    "show system alarms | display xml" wErrSys ["router1"]
  have hC := errors_abort_without_partial_records wErrClient wErrUnmarshal
    wErrUnmarshalIfc wErrUnmarshal "x" "link down" "" wErrSys ["router1"]
  exact ⟨rfl, rfl, hA.1 rfl, hA.2.2.2.1 rfl (hA.1 rfl), hB.2.1 rfl rfl, hC.2.2.2.2⟩

end JunosExporter
